import Mathlib

/-!
Verification of the Budget Intelligence Index (BII) calculator
(`bii_calculator.py`).  The engine is a pure function from a structured
input record to a structured result record: nine layer scorers, a
weighted aggregator and a letter grader.  Python floats are embedded as
exact rationals (every literal appearing in a branch condition of the
source is an exact decimal), Python ints as `Int`, the categorical trend
field as `String`.  `round(x, 1)` is embedded as round-half-to-even to
one decimal place, matching the documented Python rounding mode; no
claim settled below depends on a tie-breaking case of the rounding.
-/

namespace BII

/-- Input record for all 9 layers (`LayerInputs` dataclass of the source). -/
structure LayerInputs where
  budget_on_time : Bool
  audit_delay_years : Int
  non_oil_revenue_percent : ℚ
  tax_base_breadth_score : ℚ
  collection_efficiency : ℚ
  debt_to_gdp : ℚ
  debt_service_to_revenue : ℚ
  fiscal_balance_trend : String
  productive_spending_percent : ℚ
  consumption_spending_percent : ℚ
  ease_of_business_rank : Int
  sme_support_delivery_rate : ℚ
  forex_access_score : ℚ
  non_oil_exports_growth : ℚ
  caricom_integration_score : ℚ
  export_diversification_index : ℚ
  climate_budget_gdp_percent : ℚ
  green_projects_count : Int
  ict_budget_percent : ℚ
  egov_adoption_percent : ℚ
  digital_literacy_score : ℚ
  adaptation_funding_score : ℚ
  inflation_rate : ℚ
  unemployment_rate : ℚ
  real_wage_growth : ℚ
  food_security_score : ℚ
deriving DecidableEq

/-- Final clamp used by every layer scorer: `max(0.0, min(10.0, score))`. -/
def clamp10 (x : ℚ) : ℚ := max 0 (min 10 x)

/-- The fixed weight table `BIICalculator.LAYER_WEIGHTS` of the source. -/
def LAYER_WEIGHTS : List (String × ℚ) :=
  [("fiscal_transparency", 12/100),
   ("revenue_stability", 14/100),
   ("debt_health", 15/100),
   ("expenditure_efficiency", 13/100),
   ("private_sector", 11/100),
   ("trade_integration", 10/100),
   ("climate_resilience", 8/100),
   ("digital_readiness", 9/100),
   ("human_impact", 8/100)]

/-- Dictionary access `LAYER_WEIGHTS[key]` (all keys used by the engine are present). -/
def weightOf (k : String) : ℚ := (LAYER_WEIGHTS.lookup k).getD 0

/-- Layer 1: baseline 5, +5 if the budget was on time, minus
`min(audit_delay_years * 1.0, 4.0)`, clamped. -/
def calculate_layer1_fiscal_transparency
    (budget_on_time : Bool) (audit_delay_years : Int) : ℚ :=
  let score : ℚ := 5
  let score := if budget_on_time then score + 5 else score
  let audit_penalty := min ((audit_delay_years : ℚ) * 1) 4
  clamp10 (score - audit_penalty)

/-- Layer 2: the source computes
`((non_oil/100*6.0) + (tax/10*3.0) + (eff/10*1.0)) * 10` and clamps. -/
def calculate_layer2_revenue_stability
    (non_oil_percent tax_base_score collection_efficiency : ℚ) : ℚ :=
  clamp10 ((non_oil_percent / 100 * 6 + tax_base_score / 10 * 3 +
      collection_efficiency / 10 * 1) * 10)

/-- Layer 3 base score: decreasing piecewise-linear in the debt-to-GDP ratio. -/
def debt_base_score (debt_to_gdp : ℚ) : ℚ :=
  if debt_to_gdp < 60 then 9
  else if debt_to_gdp < 75 then 7 - (debt_to_gdp - 60) / 15 * 2
  else if debt_to_gdp < 85 then 5 - (debt_to_gdp - 75) / 10 * 2
  else 2 - (debt_to_gdp - 85) / 15 * 2

/-- Layer 3 trend adjustment: the dict lookup
`{improving: 1.0, stable: 0.0, declining: -1.0}.get(trend, 0.0)`. -/
def trend_adjustment (fiscal_balance_trend : String) : ℚ :=
  if fiscal_balance_trend = "improving" then 1
  else if fiscal_balance_trend = "stable" then 0
  else if fiscal_balance_trend = "declining" then -1
  else 0

/-- Layer 3: base score from debt-to-GDP, adjusted for debt service and
fiscal trend, clamped. -/
def calculate_layer3_debt_health
    (debt_to_gdp debt_service_to_revenue : ℚ) (fiscal_balance_trend : String) : ℚ :=
  let base := debt_base_score debt_to_gdp
  let base :=
    if debt_service_to_revenue < 15 then base + 1
    else if debt_service_to_revenue > 20 then base - 1
    else base
  clamp10 (base + trend_adjustment fiscal_balance_trend)

/-- Layer 4: `(productive / consumption) * 5` clamped, with the explicit
divide-by-zero branch returning 0.0. -/
def calculate_layer4_expenditure_efficiency
    (productive_percent consumption_percent : ℚ) : ℚ :=
  if consumption_percent = 0 then 0
  else clamp10 (productive_percent / consumption_percent * 5)

/-- Layer 5: ease-of-business step function + SME delivery + forex access. -/
def calculate_layer5_private_sector
    (ease_of_business_rank : Int) (sme_delivery_rate forex_access : ℚ) : ℚ :=
  let eob_score : ℚ :=
    if ease_of_business_rank ≤ 50 then 4
    else if ease_of_business_rank ≤ 100 then 3
    else if ease_of_business_rank ≤ 150 then 2
    else 1
  let sme_score := min (sme_delivery_rate / 25) 4
  let forex_score := min (forex_access / 5) 2
  clamp10 (eob_score + sme_score + forex_score)

/-- Layer 6: export-growth piecewise curve + CARICOM + diversification. -/
def calculate_layer6_trade_integration
    (export_growth caricom_integration diversification_index : ℚ) : ℚ :=
  let growth_score : ℚ :=
    if export_growth ≥ 10 then 4
    else if export_growth ≥ 5 then 2 + (export_growth - 5) / 5 * 2
    else if export_growth ≥ 0 then export_growth / 5 * 2
    else 0
  let caricom_score := min (caricom_integration / (333/100)) 3
  let div_score := (1 - diversification_index) * 3
  clamp10 (growth_score + caricom_score + div_score)

/-- Layer 7 budget sub-score, branch for values below 0.5: `value / 0.5`. -/
def climate_budget_low (v : ℚ) : ℚ := v / (1/2)

/-- Layer 7 budget sub-score, branch for values in [0.5, 1.0):
`1.0 + (value - 0.5) * 2`. -/
def climate_budget_mid1 (v : ℚ) : ℚ := 1 + (v - 1/2) * 2

/-- Layer 7 budget sub-score, branch for values in [1.0, 2.0):
`2.0 + (value - 1.0) * 2`. -/
def climate_budget_mid2 (v : ℚ) : ℚ := 2 + (v - 1) * 2

/-- Layer 7 budget sub-score, branch for values at or above 2.0: constant 4.0. -/
def climate_budget_high : ℚ := 4

/-- Layer 7 budget sub-score: the if-chain of the source over the four branches. -/
def climate_budget_score (v : ℚ) : ℚ :=
  if v ≥ 2 then climate_budget_high
  else if v ≥ 1 then climate_budget_mid2 v
  else if v ≥ 1/2 then climate_budget_mid1 v
  else climate_budget_low v

/-- Layer 7: climate budget sub-score + project-count step + adaptation funding. -/
def calculate_layer7_climate_resilience
    (climate_budget_gdp : ℚ) (projects_count : Int) (adaptation_funding : ℚ) : ℚ :=
  let budget_score := climate_budget_score climate_budget_gdp
  let projects_score : ℚ :=
    if projects_count ≥ 10 then 3
    else if projects_count ≥ 5 then 2
    else if projects_count ≥ 1 then 1
    else 0
  let adaptation_score := min (adaptation_funding / (333/100)) 3
  clamp10 (budget_score + projects_score + adaptation_score)

/-- Layer 8: ICT budget piecewise + e-gov adoption piecewise + digital literacy. -/
def calculate_layer8_digital_readiness
    (ict_budget_percent egov_adoption digital_literacy : ℚ) : ℚ :=
  let ict_score : ℚ :=
    if ict_budget_percent ≥ 2 then 3
    else if ict_budget_percent ≥ 1 then 2 + (ict_budget_percent - 1)
    else if ict_budget_percent ≥ 1/2 then 1 + (ict_budget_percent - 1/2) * 2
    else ict_budget_percent / (1/2)
  let egov_score : ℚ :=
    if egov_adoption ≥ 50 then 4
    else if egov_adoption ≥ 25 then 2 + (egov_adoption - 25) / 25 * 2
    else egov_adoption / 25 * 2
  let literacy_score := min (digital_literacy / (333/100)) 3
  clamp10 (ict_score + egov_score + literacy_score)

/-- Layer 9: inflation, unemployment and wage-growth step functions + food security. -/
def calculate_layer9_human_impact
    (inflation unemployment real_wage_growth food_security : ℚ) : ℚ :=
  let inflation_score : ℚ :=
    if inflation < 2 then 3
    else if inflation < 4 then 2
    else if inflation < 6 then 1
    else 0
  let unemp_score : ℚ :=
    if unemployment < 4 then 3
    else if unemployment < 6 then 2
    else if unemployment < 8 then 1
    else 0
  let wage_score : ℚ :=
    if real_wage_growth > 2 then 2
    else if real_wage_growth > 0 then 1
    else 0
  let food_score := min (food_security / 5) 2
  clamp10 (inflation_score + unemp_score + wage_score + food_score)

/-- Round-half-to-even of a rational to the nearest integer. -/
def roundHalfEven (q : ℚ) : ℤ :=
  let f := ⌊q⌋
  let frac := q - f
  if frac < 1/2 then f
  else if frac > 1/2 then f + 1
  else if f % 2 = 0 then f else f + 1

/-- Python `round(x, 1)`: round to one decimal place, ties to even. -/
def round1 (q : ℚ) : ℚ := (roundHalfEven (q * 10) : ℚ) / 10

/-- Grade ladder `BIICalculator._calculate_grade` of the source. -/
def calculate_grade (score : ℚ) : String :=
  if score ≥ 95/10 then "A+"
  else if score ≥ 9 then "A"
  else if score ≥ 85/10 then "A-"
  else if score ≥ 8 then "B+"
  else if score ≥ 7 then "B"
  else if score ≥ 65/10 then "B-"
  else if score ≥ 6 then "C+"
  else if score ≥ 5 then "C"
  else if score ≥ 45/10 then "C-"
  else if score ≥ 4 then "D+"
  else if score ≥ 3 then "D"
  else if score ≥ 2 then "D-"
  else "F"

/-- Result record returned by `calculate_bii` (the dictionary of the source). -/
structure BIIResult where
  layer1_fiscal_transparency : ℚ
  layer2_revenue_stability : ℚ
  layer3_debt_health : ℚ
  layer4_expenditure_efficiency : ℚ
  layer5_private_sector : ℚ
  layer6_trade_integration : ℚ
  layer7_climate_resilience : ℚ
  layer8_digital_readiness : ℚ
  layer9_human_impact : ℚ
  bii_overall : ℚ
  bii_grade : String
deriving DecidableEq

/-- Unrounded layer-1 score of an input record. -/
def layer1 (i : LayerInputs) : ℚ :=
  calculate_layer1_fiscal_transparency i.budget_on_time i.audit_delay_years

/-- Unrounded layer-2 score of an input record. -/
def layer2 (i : LayerInputs) : ℚ :=
  calculate_layer2_revenue_stability i.non_oil_revenue_percent
    i.tax_base_breadth_score i.collection_efficiency

/-- Unrounded layer-3 score of an input record. -/
def layer3 (i : LayerInputs) : ℚ :=
  calculate_layer3_debt_health i.debt_to_gdp i.debt_service_to_revenue
    i.fiscal_balance_trend

/-- Unrounded layer-4 score of an input record. -/
def layer4 (i : LayerInputs) : ℚ :=
  calculate_layer4_expenditure_efficiency i.productive_spending_percent
    i.consumption_spending_percent

/-- Unrounded layer-5 score of an input record. -/
def layer5 (i : LayerInputs) : ℚ :=
  calculate_layer5_private_sector i.ease_of_business_rank
    i.sme_support_delivery_rate i.forex_access_score

/-- Unrounded layer-6 score of an input record. -/
def layer6 (i : LayerInputs) : ℚ :=
  calculate_layer6_trade_integration i.non_oil_exports_growth
    i.caricom_integration_score i.export_diversification_index

/-- Unrounded layer-7 score of an input record. -/
def layer7 (i : LayerInputs) : ℚ :=
  calculate_layer7_climate_resilience i.climate_budget_gdp_percent
    i.green_projects_count i.adaptation_funding_score

/-- Unrounded layer-8 score of an input record. -/
def layer8 (i : LayerInputs) : ℚ :=
  calculate_layer8_digital_readiness i.ict_budget_percent
    i.egov_adoption_percent i.digital_literacy_score

/-- Unrounded layer-9 score of an input record. -/
def layer9 (i : LayerInputs) : ℚ :=
  calculate_layer9_human_impact i.inflation_rate i.unemployment_rate
    i.real_wage_growth i.food_security_score

/-- Unrounded composite `bii_overall`: the weighted sum of the nine layer
scores with `LAYER_WEIGHTS`, computed before any rounding, with no clamp. -/
def bii_composite (i : LayerInputs) : ℚ :=
  layer1 i * weightOf "fiscal_transparency" +
  layer2 i * weightOf "revenue_stability" +
  layer3 i * weightOf "debt_health" +
  layer4 i * weightOf "expenditure_efficiency" +
  layer5 i * weightOf "private_sector" +
  layer6 i * weightOf "trade_integration" +
  layer7 i * weightOf "climate_resilience" +
  layer8 i * weightOf "digital_readiness" +
  layer9 i * weightOf "human_impact"

/-- The engine `BIICalculator.calculate_bii`: computes the nine layer scores,
the weighted composite, the grade (from the unrounded composite, as in the
source), and returns the result record with every numeric field rounded to
one decimal place. -/
def calculate_bii (i : LayerInputs) : BIIResult :=
  let overall := bii_composite i
  { layer1_fiscal_transparency := round1 (layer1 i)
    layer2_revenue_stability := round1 (layer2 i)
    layer3_debt_health := round1 (layer3 i)
    layer4_expenditure_efficiency := round1 (layer4 i)
    layer5_private_sector := round1 (layer5 i)
    layer6_trade_integration := round1 (layer6 i)
    layer7_climate_resilience := round1 (layer7 i)
    layer8_digital_readiness := round1 (layer8 i)
    layer9_human_impact := round1 (layer9 i)
    bii_overall := round1 overall
    bii_grade := calculate_grade overall }


/-! Helper lemmas and concrete inputs -/

lemma clamp10_mem (x : ℚ) : 0 ≤ clamp10 x ∧ clamp10 x ≤ 10 :=
  ⟨le_max_left 0 _, max_le (by norm_num) (min_le_left 10 x)⟩

lemma weightOf_ft : weightOf "fiscal_transparency" = 12/100 := by rfl
lemma weightOf_rs : weightOf "revenue_stability" = 14/100 := by rfl
lemma weightOf_dh : weightOf "debt_health" = 15/100 := by rfl
lemma weightOf_ee : weightOf "expenditure_efficiency" = 13/100 := by rfl
lemma weightOf_ps : weightOf "private_sector" = 11/100 := by rfl
lemma weightOf_ti : weightOf "trade_integration" = 10/100 := by rfl
lemma weightOf_cr : weightOf "climate_resilience" = 8/100 := by rfl
lemma weightOf_dr : weightOf "digital_readiness" = 9/100 := by rfl
lemma weightOf_hi : weightOf "human_impact" = 8/100 := by rfl

lemma layer1_mem (i : LayerInputs) : 0 ≤ layer1 i ∧ layer1 i ≤ 10 := clamp10_mem _
lemma layer2_mem (i : LayerInputs) : 0 ≤ layer2 i ∧ layer2 i ≤ 10 := clamp10_mem _
lemma layer3_mem (i : LayerInputs) : 0 ≤ layer3 i ∧ layer3 i ≤ 10 := clamp10_mem _
lemma layer4_mem (i : LayerInputs) : 0 ≤ layer4 i ∧ layer4 i ≤ 10 := by
  unfold layer4 calculate_layer4_expenditure_efficiency
  split
  · norm_num
  · exact clamp10_mem _
lemma layer5_mem (i : LayerInputs) : 0 ≤ layer5 i ∧ layer5 i ≤ 10 := clamp10_mem _
lemma layer6_mem (i : LayerInputs) : 0 ≤ layer6 i ∧ layer6 i ≤ 10 := clamp10_mem _
lemma layer7_mem (i : LayerInputs) : 0 ≤ layer7 i ∧ layer7 i ≤ 10 := clamp10_mem _
lemma layer8_mem (i : LayerInputs) : 0 ≤ layer8 i ∧ layer8 i ≤ 10 := clamp10_mem _
lemma layer9_mem (i : LayerInputs) : 0 ≤ layer9 i ∧ layer9 i ≤ 10 := clamp10_mem _

/-- Concrete record whose composite is 8.97: every layer at its maximum
except debt health (debt-to-GDP 91.5, low debt service, improving trend,
layer-3 score 47/15). -/
def gradeBoundaryInput : LayerInputs :=
  { budget_on_time := true
    audit_delay_years := 0
    non_oil_revenue_percent := 100
    tax_base_breadth_score := 10
    collection_efficiency := 10
    debt_to_gdp := 183/2
    debt_service_to_revenue := 0
    fiscal_balance_trend := "improving"
    productive_spending_percent := 100
    consumption_spending_percent := 10
    ease_of_business_rank := 1
    sme_support_delivery_rate := 100
    forex_access_score := 10
    non_oil_exports_growth := 10
    caricom_integration_score := 10
    export_diversification_index := 0
    climate_budget_gdp_percent := 2
    green_projects_count := 10
    ict_budget_percent := 2
    egov_adoption_percent := 50
    digital_literacy_score := 10
    adaptation_funding_score := 10
    inflation_rate := 0
    unemployment_rate := 0
    real_wage_growth := 3
    food_security_score := 10 }

/-- The Trinidad and Tobago FY2026 sample record from the source's example usage. -/
def sampleInputs : LayerInputs :=
  { budget_on_time := true
    audit_delay_years := 2
    non_oil_revenue_percent := 78
    tax_base_breadth_score := 5
    collection_efficiency := 5
    debt_to_gdp := 409/5
    debt_service_to_revenue := 103/5
    fiscal_balance_trend := "declining"
    productive_spending_percent := 127/5
    consumption_spending_percent := 503/10
    ease_of_business_rank := 105
    sme_support_delivery_rate := 28
    forex_access_score := 4
    non_oil_exports_growth := -6
    caricom_integration_score := 26/5
    export_diversification_index := 39/50
    climate_budget_gdp_percent := 9/50
    green_projects_count := 5
    ict_budget_percent := 9/10
    egov_adoption_percent := 32
    digital_literacy_score := 51/10
    adaptation_funding_score := 18/5
    inflation_rate := 3/10
    unemployment_rate := 21/5
    real_wage_growth := -1/2
    food_security_score := 27/5 }

lemma gradeBoundary_eval :
    (calculate_bii gradeBoundaryInput).bii_grade = "A-" ∧
    (calculate_bii gradeBoundaryInput).bii_overall = 9 := by
  norm_num [calculate_bii, bii_composite, layer1, layer2, layer3, layer4, layer5,
    layer6, layer7, layer8, layer9, calculate_layer1_fiscal_transparency,
    calculate_layer2_revenue_stability, calculate_layer3_debt_health,
    calculate_layer4_expenditure_efficiency, calculate_layer5_private_sector,
    calculate_layer6_trade_integration, calculate_layer7_climate_resilience,
    calculate_layer8_digital_readiness, calculate_layer9_human_impact,
    debt_base_score, trend_adjustment, climate_budget_score, climate_budget_high,
    climate_budget_mid2, climate_budget_mid1, climate_budget_low, clamp10,
    weightOf_ft, weightOf_rs, weightOf_dh, weightOf_ee, weightOf_ps, weightOf_ti,
    weightOf_cr, weightOf_dr, weightOf_hi, calculate_grade, gradeBoundaryInput,
    roundHalfEven, round1, min_def, max_def]

/-! Claim theorems -/

/-- C1: the Layer 2 score at the failing input (50, 5, 5) is 10.0, not the
5.0 the claimed points formula gives — the code multiplies the already
point-valued contributions by 10 again. -/
theorem layer2_scale_bug_at_failing_input :
    calculate_layer2_revenue_stability 50 5 5 = 10 ∧
    (50/100 * 6 + 5/10 * 3 + 5/10 * 1 : ℚ) = 5 ∧
    calculate_layer2_revenue_stability 50 5 5 ≠ 50/100 * 6 + 5/10 * 3 + 5/10 * 1 := by
  norm_num [calculate_layer2_revenue_stability, clamp10]

/-- C2 counterexample: on a concrete record the grade in the result is A-,
while the ladder applied to the rounded bii_overall of the same record
gives A. -/
theorem grade_vs_rounded_composite_counterexample :
    (calculate_bii gradeBoundaryInput).bii_grade ≠
      calculate_grade ((calculate_bii gradeBoundaryInput).bii_overall) := by
  rw [gradeBoundary_eval.1, gradeBoundary_eval.2]
  have h9 : calculate_grade 9 = "A" := by norm_num [calculate_grade]
  rw [h9]
  decide

/-- C2 amended: the grade in the result record is the thirteen-step ladder
applied to the unrounded composite, before the one-decimal rounding that
produces the bii_overall field. -/
theorem grade_from_unrounded_composite (i : LayerInputs) :
    (calculate_bii i).bii_grade = calculate_grade (bii_composite i) := rfl

/-- C3: Layer 4 returns 0.0 when consumption spending is exactly 0, and
otherwise returns the ratio formula clamped to the interval from 0 to 10. -/
theorem layer4_zero_consumption_policy (p c : ℚ) :
    calculate_layer4_expenditure_efficiency p 0 = 0 ∧
    (c ≠ 0 → calculate_layer4_expenditure_efficiency p c =
      max 0 (min 10 (p / c * 5))) := by
  constructor
  · simp [calculate_layer4_expenditure_efficiency]
  · intro hc
    simp [calculate_layer4_expenditure_efficiency, hc, clamp10]

theorem layer4_zero_consumption_policy_witness :
    calculate_layer4_expenditure_efficiency 7 0 = 0 ∧
    calculate_layer4_expenditure_efficiency 7 2 = max 0 (min 10 (7 / 2 * 5)) :=
  ⟨(layer4_zero_consumption_policy 7 2).1,
   (layer4_zero_consumption_policy 7 2).2 (by norm_num)⟩

/-- C4: every layer score lies in the closed interval from 0 to 10, and the
unclamped weighted composite also lies in that interval. -/
theorem layer_scores_and_composite_in_range (i : LayerInputs) :
    (0 ≤ layer1 i ∧ layer1 i ≤ 10) ∧ (0 ≤ layer2 i ∧ layer2 i ≤ 10) ∧
    (0 ≤ layer3 i ∧ layer3 i ≤ 10) ∧ (0 ≤ layer4 i ∧ layer4 i ≤ 10) ∧
    (0 ≤ layer5 i ∧ layer5 i ≤ 10) ∧ (0 ≤ layer6 i ∧ layer6 i ≤ 10) ∧
    (0 ≤ layer7 i ∧ layer7 i ≤ 10) ∧ (0 ≤ layer8 i ∧ layer8 i ≤ 10) ∧
    (0 ≤ layer9 i ∧ layer9 i ≤ 10) ∧
    (0 ≤ bii_composite i ∧ bii_composite i ≤ 10) := by
  have h1 := layer1_mem i
  have h2 := layer2_mem i
  have h3 := layer3_mem i
  have h4 := layer4_mem i
  have h5 := layer5_mem i
  have h6 := layer6_mem i
  have h7 := layer7_mem i
  have h8 := layer8_mem i
  have h9 := layer9_mem i
  refine ⟨h1, h2, h3, h4, h5, h6, h7, h8, h9, ?_⟩
  unfold bii_composite
  rw [weightOf_ft, weightOf_rs, weightOf_dh, weightOf_ee, weightOf_ps,
    weightOf_ti, weightOf_cr, weightOf_dr, weightOf_hi]
  constructor
  · nlinarith [h1.1, h2.1, h3.1, h4.1, h5.1, h6.1, h7.1, h8.1, h9.1]
  · nlinarith [h1.2, h2.2, h3.2, h4.2, h5.2, h6.2, h7.2, h8.2, h9.2]

/-- C5: the weight table has exactly nine distinct layer names, every weight
lies strictly between 0 and 1, and the weights sum to exactly 1. -/
theorem layer_weights_well_formed :
    LAYER_WEIGHTS.length = 9 ∧
    (LAYER_WEIGHTS.map Prod.fst).Nodup ∧
    (∀ p ∈ LAYER_WEIGHTS, 0 < p.2 ∧ p.2 < 1) ∧
    (LAYER_WEIGHTS.map Prod.snd).sum = 1 := by
  refine ⟨rfl, ?_, ?_, by norm_num [LAYER_WEIGHTS]⟩
  · simp [LAYER_WEIGHTS]
  · intro p hp
    simp only [LAYER_WEIGHTS, List.mem_cons, List.not_mem_nil, or_false] at hp
    rcases hp with h | h | h | h | h | h | h | h | h <;> subst h <;> norm_num

theorem layer_weights_well_formed_witness :
    0 < (15/100 : ℚ) ∧ (15/100 : ℚ) < 1 :=
  layer_weights_well_formed.2.2.1 ("debt_health", 15/100)
    (by simp [LAYER_WEIGHTS])

/-- C6: Layer 3 with a trend string outside improving, stable and declining
scores identically to the same call with trend stable. -/
theorem layer3_unrecognized_trend_as_stable
    (d s : ℚ) (t : String)
    (h1 : t ≠ "improving") (h2 : t ≠ "stable") (h3 : t ≠ "declining") :
    calculate_layer3_debt_health d s t = calculate_layer3_debt_health d s "stable" := by
  simp [calculate_layer3_debt_health, trend_adjustment, h1, h2, h3]

theorem layer3_unrecognized_trend_as_stable_witness :
    calculate_layer3_debt_health 70 10 "unknown" =
      calculate_layer3_debt_health 70 10 "stable" :=
  layer3_unrecognized_trend_as_stable 70 10 "unknown"
    (by decide) (by decide) (by decide)

/-- C7: the Layer 3 base score is nonincreasing in the debt-to-GDP ratio,
including across the branch boundaries at 60, 75 and 85. -/
theorem debt_base_score_antitone (d1 d2 : ℚ) (h : d1 ≤ d2) :
    debt_base_score d2 ≤ debt_base_score d1 := by
  unfold debt_base_score
  split_ifs <;> linarith

theorem debt_base_score_antitone_witness :
    debt_base_score 90 ≤ debt_base_score 50 :=
  debt_base_score_antitone 50 90 (by norm_num)

/-- C8: the Layer 7 climate-budget sub-score is continuous at its three
breakpoints: the adjacent branch formulas agree at 0.5 (both 1), at 1
(both 2) and at 2 (both 4), so the assembled piecewise function takes
those shared values there. -/
theorem climate_budget_breakpoint_continuity :
    climate_budget_low (1/2) = climate_budget_mid1 (1/2) ∧
    climate_budget_mid1 (1/2) = 1 ∧
    climate_budget_mid1 1 = climate_budget_mid2 1 ∧
    climate_budget_mid2 1 = 2 ∧
    climate_budget_mid2 2 = climate_budget_high ∧
    climate_budget_high = 4 ∧
    climate_budget_score (1/2) = 1 ∧
    climate_budget_score 1 = 2 ∧
    climate_budget_score 2 = 4 := by
  norm_num [climate_budget_low, climate_budget_mid1, climate_budget_mid2,
    climate_budget_high, climate_budget_score]

/-- C9: the engine is deterministic — two invocations on records with
identical field values return identical result records. -/
theorem calculate_bii_deterministic (i j : LayerInputs)
    (e1 : i.budget_on_time = j.budget_on_time)
    (e2 : i.audit_delay_years = j.audit_delay_years)
    (e3 : i.non_oil_revenue_percent = j.non_oil_revenue_percent)
    (e4 : i.tax_base_breadth_score = j.tax_base_breadth_score)
    (e5 : i.collection_efficiency = j.collection_efficiency)
    (e6 : i.debt_to_gdp = j.debt_to_gdp)
    (e7 : i.debt_service_to_revenue = j.debt_service_to_revenue)
    (e8 : i.fiscal_balance_trend = j.fiscal_balance_trend)
    (e9 : i.productive_spending_percent = j.productive_spending_percent)
    (e10 : i.consumption_spending_percent = j.consumption_spending_percent)
    (e11 : i.ease_of_business_rank = j.ease_of_business_rank)
    (e12 : i.sme_support_delivery_rate = j.sme_support_delivery_rate)
    (e13 : i.forex_access_score = j.forex_access_score)
    (e14 : i.non_oil_exports_growth = j.non_oil_exports_growth)
    (e15 : i.caricom_integration_score = j.caricom_integration_score)
    (e16 : i.export_diversification_index = j.export_diversification_index)
    (e17 : i.climate_budget_gdp_percent = j.climate_budget_gdp_percent)
    (e18 : i.green_projects_count = j.green_projects_count)
    (e19 : i.ict_budget_percent = j.ict_budget_percent)
    (e20 : i.egov_adoption_percent = j.egov_adoption_percent)
    (e21 : i.digital_literacy_score = j.digital_literacy_score)
    (e22 : i.adaptation_funding_score = j.adaptation_funding_score)
    (e23 : i.inflation_rate = j.inflation_rate)
    (e24 : i.unemployment_rate = j.unemployment_rate)
    (e25 : i.real_wage_growth = j.real_wage_growth)
    (e26 : i.food_security_score = j.food_security_score) :
    calculate_bii i = calculate_bii j := by
  have hij : i = j := by
    cases i; cases j; simp_all
  rw [hij]

theorem calculate_bii_deterministic_witness :
    calculate_bii sampleInputs = calculate_bii sampleInputs :=
  calculate_bii_deterministic sampleInputs sampleInputs
    rfl rfl rfl rfl rfl rfl rfl rfl rfl rfl rfl rfl rfl
    rfl rfl rfl rfl rfl rfl rfl rfl rfl rfl rfl rfl rfl

/-- C10: whenever the non-oil revenue share is at least 50/3 and the other
two Layer 2 inputs are nonnegative, the Layer 2 score is exactly 10. -/
theorem layer2_saturates_at_fifty_thirds (n t e : ℚ)
    (hn : 50/3 ≤ n) (ht : 0 ≤ t) (he : 0 ≤ e) :
    calculate_layer2_revenue_stability n t e = 10 := by
  unfold calculate_layer2_revenue_stability clamp10
  have h : (10 : ℚ) ≤ (n / 100 * 6 + t / 10 * 3 + e / 10 * 1) * 10 := by linarith
  rw [min_eq_left h]
  norm_num

theorem layer2_saturates_at_fifty_thirds_witness :
    calculate_layer2_revenue_stability 20 1 2 = 10 :=
  layer2_saturates_at_fifty_thirds 20 1 2 (by norm_num) (by norm_num) (by norm_num)

end BII
